import Mathlib

/-!
Verification of the core pipeline of `stock_data_fetcher.py`
(StockDataFetcher.fetch_historical_data, save_historical_data,
load_historical_data, and plot_candle_interactive) against its
natural-language specification.

Modelling conventions (shallow embedding of the pandas code):
* A pandas timestamp is measured in whole minutes.  A `DtIndex` models a
  `pandas.DatetimeIndex`: one optional timezone for the whole index; when the
  index is tz-aware its stored values are UTC instants, when it is naive they
  are wall-clock values (this is exactly pandas' internal representation).
* A timezone is modelled by its fixed UTC offset in minutes
  (`America/New_York` at its standard offset, -300).  Daylight-saving
  variation of the offset is immaterial to every property proved here.
* Python floats are modelled by `PyFloat`: exact rationals extended with the
  IEEE special values produced by division by zero (`float64` arithmetic on
  the values appearing here is exact, and `to_csv`/`read_csv` round-trips
  `float64` values exactly under the default repr formatting).
* The CSV file written by `DataFrame.to_csv` is modelled as a list of
  structured records, one per bar, carrying exactly the information the
  textual row carries: the local wall-clock date-time, its UTC offset (absent
  for a naive index), the OHLC values, the volume and the
  `HasEarningsReport` flag.
* The filesystem is an association list from paths to file contents, threaded
  through the operations that the source gives a file path to.
* Exceptions raised by pandas (`TypeError` from `tz_localize` on an aware
  timestamp, a missing file on `read_csv`) appear as `Except.error`.
-/

namespace SDF

/-- Python-level errors that the modelled code can raise. -/
inductive PyErr where
  | typeError : PyErr
  | fileNotFoundError : PyErr
deriving DecidableEq, Repr

/-- A Python/NumPy float: an exact rational or an IEEE special value. -/
inductive PyFloat where
  | fin (q : ℚ) : PyFloat
  | posInf : PyFloat
  | negInf : PyFloat
  | nan : PyFloat
deriving DecidableEq, Repr

/-- IEEE-754 subtraction on modelled floats. -/
def PyFloat.sub : PyFloat → PyFloat → PyFloat
  | .nan, _ => .nan
  | _, .nan => .nan
  | .fin a, .fin b => .fin (a - b)
  | .posInf, .posInf => .nan
  | .negInf, .negInf => .nan
  | .posInf, _ => .posInf
  | .negInf, _ => .negInf
  | .fin _, .posInf => .negInf
  | .fin _, .negInf => .posInf

/-- IEEE-754 division on modelled floats; division of a nonzero value by zero
yields a signed infinity, `0/0` yields `nan` (NumPy float64 semantics). -/
def PyFloat.div : PyFloat → PyFloat → PyFloat
  | .nan, _ => .nan
  | _, .nan => .nan
  | .fin a, .fin b =>
      if b = 0 then (if 0 < a then .posInf else if a < 0 then .negInf else .nan)
      else .fin (a / b)
  | .fin _, .posInf => .fin 0
  | .fin _, .negInf => .fin 0
  | .posInf, .fin b => if b < 0 then .negInf else .posInf
  | .negInf, .fin b => if b < 0 then .posInf else .negInf
  | .posInf, .posInf => .nan
  | .posInf, .negInf => .nan
  | .negInf, .posInf => .nan
  | .negInf, .negInf => .nan

/-- IEEE-754 multiplication on modelled floats. -/
def PyFloat.mul : PyFloat → PyFloat → PyFloat
  | .nan, _ => .nan
  | _, .nan => .nan
  | .fin a, .fin b => .fin (a * b)
  | .posInf, .fin b => if 0 < b then .posInf else if b < 0 then .negInf else .nan
  | .negInf, .fin b => if 0 < b then .negInf else if b < 0 then .posInf else .nan
  | .fin a, .posInf => if 0 < a then .posInf else if a < 0 then .negInf else .nan
  | .fin a, .negInf => if 0 < a then .negInf else if a < 0 then .posInf else .nan
  | .posInf, .posInf => .posInf
  | .posInf, .negInf => .negInf
  | .negInf, .posInf => .negInf
  | .negInf, .negInf => .posInf

/-- Minutes in a calendar day. -/
def dayMinutes : Int := 1440

/-- The timezone `America/New_York`, modelled at its standard UTC offset in minutes. -/
def nyOffset : Int := -300

/-- A single pandas timestamp: naive wall-clock time, or an absolute UTC
instant together with the UTC offset of its timezone. -/
inductive PTimestamp where
  | naive (wall : Int) : PTimestamp
  | aware (instant : Int) (tzOffset : Int) : PTimestamp
deriving DecidableEq, Repr

/-- A `pandas.DatetimeIndex`: values plus one optional timezone offset.
Aware values are UTC instants; naive values are wall-clock minutes. -/
structure DtIndex where
  vals : List Int
  tz : Option Int
deriving DecidableEq, Repr

/-- Wall-clock (local) minutes of one stored index value. -/
def localWall : Option Int → Int → Int
  | none, v => v
  | some o, v => v + o

/-- Truncate a wall-clock time to midnight of its calendar day. -/
def truncDay (w : Int) : Int := dayMinutes * Int.fdiv w dayMinutes

/-- The calendar day (as a day number) of a stored index value under its
index's timezone: the canonical date of the glossary. -/
def localDay (tz : Option Int) (v : Int) : Int := Int.fdiv (localWall tz v) dayMinutes

/-- Model of `DatetimeIndex.normalize()`: set every element's local time-of-day to
midnight, keeping the timezone. -/
def DtIndex.normalize (idx : DtIndex) : DtIndex :=
  match idx.tz with
  | none => ⟨idx.vals.map truncDay, none⟩
  | some o => ⟨idx.vals.map (fun v => truncDay (v + o) - o), some o⟩

/-- Model of `DatetimeIndex.tz_localize(tz)`: attach a timezone to a naive index;
pandas raises `TypeError` when the index is already tz-aware. -/
def DtIndex.tz_localize (idx : DtIndex) (o : Int) : Except PyErr DtIndex :=
  match idx.tz with
  | none => .ok ⟨idx.vals.map (fun w => w - o), some o⟩
  | some _ => .error .typeError

/-- Model of `a.isin(b)` for two `DatetimeIndex`es: element-wise membership.  Two
aware indexes compare by UTC instant, two naive indexes by wall-clock value;
a naive value never equals an aware one, so mixed indexes yield all-false. -/
def indexIsin (a b : DtIndex) : List Bool :=
  match a.tz, b.tz with
  | none, none => a.vals.map (fun v => decide (v ∈ b.vals))
  | some _, some _ => a.vals.map (fun v => decide (v ∈ b.vals))
  | _, _ => a.vals.map (fun _ => false)

/-- One row of OHLCV data, the per-bar columns of the history frame. -/
structure Row where
  Open : ℚ
  High : ℚ
  Low : ℚ
  Close : ℚ
  Volume : Int
deriving DecidableEq, Repr

/-- The annotated data frame produced by `fetch_historical_data`:
a datetime index, the OHLCV columns, the added `HasEarningsReport` column,
and the two columns that `plot_candle_interactive` may add in place
(`Date`, whose values duplicate the index, and `Percent Change`). -/
structure DF where
  idx : DtIndex
  rows : List Row
  hasEarningsReport : List Bool
  hasDateCol : Bool := false
  pct : Option (List PyFloat) := none
deriving DecidableEq, Repr

/-- One record of the persisted CSV file: the information carried by one
textual row written by `to_csv` (local date-time, UTC offset when the index
was aware, OHLC, volume, flag). -/
structure CsvRow where
  wall : Int
  offset : Option Int
  Open : ℚ
  High : ℚ
  Low : ℚ
  Close : ℚ
  Volume : Int
  flag : Bool
deriving DecidableEq, Repr

/-- The filesystem: an association list from paths to CSV contents. -/
def FS : Type := List (String × List CsvRow)

instance : DecidableEq FS := by
  unfold FS
  infer_instance

/-- Write a file (`DataFrame.to_csv`): the new content shadows any previous
content at the same path. -/
def fsWrite (fs : FS) (path : String) (content : List CsvRow) : FS :=
  (path, content) :: fs

/-- Read a file (`pandas.read_csv`): the most recently written content at the
path, if any. -/
def fsRead (fs : FS) (path : String) : Option (List CsvRow) :=
  (List.find? (fun e => e.1 == path) fs).map (fun e => e.2)

/-- Model of `StockDataFetcher.fetch_historical_data`.  The gateway calls
`stock.history(period, interval)` and `stock.earnings_dates` are external
(`yfinance`); their results enter as the parameters `histIdx`/`histRows`
(the history frame's index and OHLCV rows) and `earnIdx` (the earnings-date
index).  The body then
1. normalizes the earnings index and the history index (strip time-of-day),
2. adds the `HasEarningsReport` column via `df.index.isin(earnings_df.index)`,
3. localizes the index to `America/New_York` only when it is tz-naive,
and returns the frame; `csv_path`, `period` and `interval` are otherwise
unused and the filesystem is passed through untouched. -/
def fetch_historical_data (symbol : String) (histIdx : DtIndex)
    (histRows : List Row) (earnIdx : DtIndex)
    (csv_path : String) (period : String) (interval : String) (fs : FS) :
    Except PyErr (DF × FS) := do
  let earnN := earnIdx.normalize
  let histN := histIdx.normalize
  let flags := indexIsin histN earnN
  let finalIdx ← if histN.tz = none then histN.tz_localize nyOffset else pure histN
  pure ({ idx := finalIdx, rows := histRows, hasEarningsReport := flags }, fs)

/-- Encode a frame as the CSV content written by `to_csv`: one record per
bar, in index order; the serialized timestamp is the local wall-clock time
together with the index's UTC offset (absent for a naive index). -/
def encodeCsv (df : DF) : List CsvRow :=
  (df.idx.vals.zip (df.rows.zip df.hasEarningsReport)).map fun t =>
    { wall := localWall df.idx.tz t.1
      offset := df.idx.tz
      Open := t.2.1.Open, High := t.2.1.High, Low := t.2.1.Low
      Close := t.2.1.Close, Volume := t.2.1.Volume
      flag := t.2.2 }

/-- Model of `StockDataFetcher.save_historical_data`: `data.to_csv(csv_path)`. -/
def save_historical_data (data : DF) (csv_path : String) (fs : FS) : FS :=
  fsWrite fs csv_path (encodeCsv data)

/-- Decode CSV content as `load_historical_data` does: parse each record,
reconstruct the absolute instant (`pd.to_datetime(..., utc=True)` treats a
record without an offset as UTC), then `tz_convert('America/New_York')`. -/
def decodeCsv (file : List CsvRow) : DF :=
  { idx := ⟨file.map (fun r => r.wall - r.offset.getD 0), some nyOffset⟩
    rows := file.map (fun r => ⟨r.Open, r.High, r.Low, r.Close, r.Volume⟩)
    hasEarningsReport := file.map (fun r => r.flag) }

/-- Model of `StockDataFetcher.load_historical_data`: read the CSV at the path
(`FileNotFoundError` when absent) and decode it. -/
def load_historical_data (csv_path : String) (fs : FS) : Except PyErr DF :=
  match fsRead fs csv_path with
  | none => .error .fileNotFoundError
  | some file => .ok (decodeCsv file)

/-- Model of `Timestamp.tz_localize`: attach a timezone to a naive timestamp; with
target `None` remove the timezone keeping local wall time; raise `TypeError`
on an aware timestamp with a concrete target timezone. -/
def tsLocalize : PTimestamp → Option Int → Except PyErr PTimestamp
  | .naive w, none => .ok (.naive w)
  | .naive w, some o => .ok (.aware (w - o) o)
  | .aware i o, none => .ok (.naive (i + o))
  | .aware _ _, some _ => .error .typeError

/-- The comparable stored value of a timestamp: the UTC instant when aware,
the wall-clock value when naive (what comparison against the like-localized
index column works on). -/
def tsVal : PTimestamp → Int
  | .naive w => w
  | .aware i _ => i

/-- Model of `pd.to_datetime(bound).tz_localize(data.Date.dt.tz)` applied to an
optional filter bound, reduced to the stored value used for comparison. -/
def convBound (b : Option PTimestamp) (tz : Option Int) :
    Except PyErr (Option Int) :=
  match b with
  | none => .ok none
  | some t => (tsLocalize t tz).map (fun u => some (tsVal u))

/-- Keep a bar whose stored index value is `v` under optional inclusive
lower/upper bounds. -/
def keepBar (sv ev : Option Int) (v : Int) : Bool :=
  (sv.all fun s => decide (s ≤ v)) && (ev.all fun e => decide (v ≤ e))

/-- The per-bar derived metric of `plot_candle_interactive`:
`(Close - Open) / Open * 100` in float arithmetic. -/
def pcOf (o c : ℚ) : PyFloat :=
  (((PyFloat.fin c).sub (PyFloat.fin o)).div (PyFloat.fin o)).mul
    (PyFloat.fin 100)

/-- The renderable chart description emitted by `plot_candle_interactive`:
the filtered bars' dates and OHLC columns, the percent-change values carried
by the hover texts, and the earnings-day marker points. -/
structure ChartSpec where
  dates : List Int
  Open : List ℚ
  High : List ℚ
  Low : List ℚ
  Close : List ℚ
  pct : List PyFloat
  markerDates : List Int
  markerClose : List ℚ
deriving DecidableEq, Repr

/-- Model of `plot_candle_interactive(data, start_date, end_date)`.  Returns the
caller's frame as it stands after the call (the function assigns
`data['Date'] = data.index` in place before anything else, and when no bound
is supplied the `Percent Change` assignment also lands on the caller's
object; with a bound present, filtering rebinds `data` to a fresh frame and
the percent-change column is added to that copy) together with the outcome:
`TypeError` when a supplied bound is tz-aware, otherwise the chart data. -/
def plot_candle_interactive (data : DF)
    (start_date end_date : Option PTimestamp) :
    DF × Except PyErr ChartSpec :=
  let caller := { data with hasDateCol := true }
  match convBound start_date data.idx.tz with
  | .error e => (caller, .error e)
  | .ok sv =>
    match convBound end_date data.idx.tz with
    | .error e => (caller, .error e)
    | .ok ev =>
      let triples := data.idx.vals.zip (data.rows.zip data.hasEarningsReport)
      let kept := triples.filter fun t => keepBar sv ev t.1
      let pcts := kept.map fun t => pcOf t.2.1.Open t.2.1.Close
      let marks := kept.filter fun t => t.2.2
      let spec : ChartSpec :=
        { dates := kept.map fun t => t.1
          Open := kept.map fun t => t.2.1.Open
          High := kept.map fun t => t.2.1.High
          Low := kept.map fun t => t.2.1.Low
          Close := kept.map fun t => t.2.1.Close
          pct := pcts
          markerDates := marks.map fun t => t.1
          markerClose := marks.map fun t => t.2.1.Close }
      let callerOut :=
        if start_date.isNone && end_date.isNone then
          { caller with pct := some pcts }
        else caller
      (callerOut, .ok spec)

/-! ## Helper lemmas -/

/-- Evaluation of `fetch_historical_data` on a tz-naive history index: normalize both
indexes, add the flag column, then localize to `America/New_York`. -/
lemma fetch_eq_naive (symbol csv_path period interval : String) (fs : FS)
    (hv : List Int) (eIdx : DtIndex) (histRows : List Row) :
    fetch_historical_data symbol ⟨hv, none⟩ histRows eIdx csv_path period
        interval fs
      = .ok ({ idx := ⟨(hv.map truncDay).map (fun w => w - nyOffset),
                       some nyOffset⟩
               rows := histRows
               hasEarningsReport :=
                 indexIsin (DtIndex.normalize ⟨hv, none⟩) eIdx.normalize },
             fs) := by
  simp [fetch_historical_data, DtIndex.normalize, DtIndex.tz_localize]

/-- Evaluation of `fetch_historical_data` on a tz-aware history index: normalize both
indexes and add the flag column; the localization step is skipped. -/
lemma fetch_eq_aware (symbol csv_path period interval : String) (fs : FS)
    (hv : List Int) (o : Int) (eIdx : DtIndex) (histRows : List Row) :
    fetch_historical_data symbol ⟨hv, some o⟩ histRows eIdx csv_path period
        interval fs
      = .ok ({ idx := ⟨hv.map (fun v => truncDay (v + o) - o), some o⟩
               rows := histRows
               hasEarningsReport :=
                 indexIsin (DtIndex.normalize ⟨hv, some o⟩) eIdx.normalize },
             fs) := by
  simp only [fetch_historical_data, DtIndex.normalize]
  rfl

lemma fdiv_truncDay (w : Int) :
    Int.fdiv (truncDay w) dayMinutes = Int.fdiv w dayMinutes := by
  unfold truncDay
  exact Int.mul_fdiv_cancel_left _ (by decide)

/-- The canonical day of a value that was day-truncated in local time and
carried back to the stored representation is the canonical day of the
original value (tz-aware index case). -/
lemma localDay_trunc_aware (o v : Int) :
    localDay (some o) (truncDay (v + o) - o) = localDay (some o) v := by
  simp [localDay, localWall, fdiv_truncDay]

/-- The canonical day after day-truncating a naive value and localizing it
is the canonical day of the original naive value. -/
lemma localDay_trunc_naive (v : Int) :
    localDay (some nyOffset) (truncDay v - nyOffset) = localDay none v := by
  simp [localDay, localWall, fdiv_truncDay]

lemma mul_day_sub_injective (c : Int) :
    Function.Injective (fun d : Int => dayMinutes * d - c) := by
  intro a b h
  simp only [dayMinutes] at h
  omega

/-- Membership among day-truncated aware values is membership among the
canonical days. -/
lemma trunc_mem_iff_aware (o v : Int) (l : List Int) :
    (truncDay (v + o) - o) ∈ l.map (fun e => truncDay (e + o) - o)
      ↔ localDay (some o) v ∈ l.map (localDay (some o)) := by
  have h1 : (fun e => truncDay (e + o) - o)
      = (fun d : Int => dayMinutes * d - o) ∘ (localDay (some o)) := by
    funext e
    simp [truncDay, localDay, localWall]
  have h2 : truncDay (v + o) - o
      = (fun d : Int => dayMinutes * d - o) (localDay (some o) v) := by
    simp [truncDay, localDay, localWall]
  rw [h1, h2, ← List.map_map]
  exact List.mem_map_of_injective (mul_day_sub_injective o)

/-- Membership among day-truncated naive values is membership among the
canonical days. -/
lemma trunc_mem_iff_naive (v : Int) (l : List Int) :
    truncDay v ∈ l.map truncDay ↔ localDay none v ∈ l.map (localDay none) := by
  have h1 : (truncDay : Int → Int)
      = (fun d : Int => dayMinutes * d - 0) ∘ (localDay none) := by
    funext e
    simp [truncDay, localDay, localWall]
  have h2 : truncDay v = (fun d : Int => dayMinutes * d - 0) (localDay none v) := by
    simp [truncDay, localDay, localWall]
  rw [h2, h1, ← List.map_map]
  exact List.mem_map_of_injective (mul_day_sub_injective 0)

/-! ## Claim C9 (confirmed) -/

/-- Claim C9: the returned frame of `fetch_historical_data` is independent of
the `csv_path` argument, and fetching performs no write: the filesystem comes
back unchanged (persistence happens only through
`save_historical_data`). -/
theorem c9_csv_path_independent (symbol period interval : String)
    (hv : List Int) (htz : Option Int) (eIdx : DtIndex)
    (histRows : List Row) (p1 p2 : String) (fs : FS) :
    fetch_historical_data symbol ⟨hv, htz⟩ histRows eIdx p1 period interval fs
      = fetch_historical_data symbol ⟨hv, htz⟩ histRows eIdx p2 period
          interval fs
    ∧ (fetch_historical_data symbol ⟨hv, htz⟩ histRows eIdx p1 period interval
          fs).map (fun r => r.2)
        = .ok fs := by
  refine ⟨rfl, ?_⟩
  cases htz with
  | none => rw [fetch_eq_naive]; rfl
  | some o => rw [fetch_eq_aware]; rfl

/-! ## Claim C3 (corrected) -/

/-- Claim C3 counterexample: feeding an already timezone-aware bar sequence
to the normalize path returns successfully (no `AlreadyLocalized`, no error
of any kind) with the timezone silently left unchanged, contradicting the
claim that it raises. -/
theorem c3_counterexample :
    fetch_historical_data "AAPL" ⟨[14700], some (-300)⟩
        [⟨100, 105, 99, 104, 1000⟩] ⟨[], some (-300)⟩ "data.csv" "1y" "1d" []
      = .ok ({ idx := ⟨[14700], some (-300)⟩
               rows := [⟨100, 105, 99, 104, 1000⟩]
               hasEarningsReport := [false] }, []) := rfl

/-- Claim C3 (amended): normalizing an already timezone-aware bar sequence
does not raise; the localization step is skipped (guarded by the
`df.index.tz is None` check) and the series' timezone is returned
unchanged. -/
theorem c3_aware_skipped_silently (symbol csv_path period interval : String)
    (fs : FS) (hv : List Int) (o : Int) (eIdx : DtIndex)
    (histRows : List Row) :
    (fetch_historical_data symbol ⟨hv, some o⟩ histRows eIdx csv_path period
        interval fs).map (fun r => r.1.idx.tz)
      = .ok (some o) := by
  rw [fetch_eq_aware]
  rfl

/-! ## Claim C7 (corrected) -/

/-- Claim C7 counterexample: a raw bar with `Low > High` and negative volume
is not rejected: it appears unchanged in the output and no drop count
exists anywhere in the result. -/
theorem c7_counterexample :
    (fetch_historical_data "AAPL" ⟨[14460], none⟩ [⟨100, 90, 105, 104, -5⟩]
        ⟨[], none⟩ "data.csv" "1y" "1d" []).map (fun r => r.1.rows)
      = .ok [⟨100, 90, 105, 104, -5⟩]
    ∧ (90 : ℚ) < 105 ∧ (-5 : Int) < 0 := by
  refine ⟨rfl, by norm_num, by decide⟩

/-- Claim C7 (amended): `fetch_historical_data` performs no per-bar OHLC
validation: every raw bar, malformed or not, passes through to the output
unchanged, and no count of dropped bars is produced. -/
theorem c7_rows_passthrough (symbol csv_path period interval : String)
    (fs : FS) (hv : List Int) (htz : Option Int) (eIdx : DtIndex)
    (histRows : List Row) :
    (fetch_historical_data symbol ⟨hv, htz⟩ histRows eIdx csv_path period
        interval fs).map (fun r => r.1.rows)
      = .ok histRows := by
  cases htz with
  | none => rw [fetch_eq_naive]; rfl
  | some o => rw [fetch_eq_aware]; rfl

/-! ## Claim C6 (corrected) -/

/-- Modelled from the spec: the sort/uniqueness invariant of a normalized
series, "strictly ascending by date with no duplicate dates", as a
decidable check on the date values, for comparison with what the source
actually produces. -/
def specStrictAscending : List Int → Bool
  | [] => true
  | [_] => true
  | a :: b :: r => decide (a < b) && specStrictAscending (b :: r)

/-- Claim C6 counterexample: an unsorted raw input with a duplicated date
comes out of `fetch_historical_data` still unsorted and still duplicated:
the output date values fail the spec's strictly-ascending-unique-dates
invariant. -/
theorem c6_counterexample :
    (fetch_historical_data "AAPL" ⟨[14460, 1500, 14460], none⟩
        [⟨100, 105, 99, 104, 1000⟩, ⟨100, 105, 99, 104, 1000⟩,
         ⟨100, 105, 99, 104, 1000⟩]
        ⟨[], none⟩ "data.csv" "1y" "1d" []).map (fun r => r.1.idx.vals)
      = .ok [14700, 1740, 14700]
    ∧ specStrictAscending [14700, 1740, 14700] = false := ⟨rfl, rfl⟩

/-- Claim C6 (amended): `fetch_historical_data` neither sorts nor
deduplicates and surfaces no warning count: the output's sequence of
canonical calendar days is exactly the input's, in the same order and with
the same multiplicities. -/
theorem c6_day_sequence_preserved (symbol csv_path period interval : String)
    (fs : FS) (hv : List Int) (htz : Option Int) (eIdx : DtIndex)
    (histRows : List Row) :
    (fetch_historical_data symbol ⟨hv, htz⟩ histRows eIdx csv_path period
        interval fs).map (fun r => r.1.idx.vals.map (localDay r.1.idx.tz))
      = .ok (hv.map (localDay htz)) := by
  cases htz with
  | none =>
    rw [fetch_eq_naive]
    simp [Except.map, List.map_map, Function.comp, localDay_trunc_naive]
  | some o =>
    rw [fetch_eq_aware]
    simp [Except.map, List.map_map, Function.comp, localDay_trunc_aware]

/-! ## Claim C1 (corrected) -/

/-- Claim C1 counterexample: with the history index tz-aware in UTC-05:00
and the earnings index tz-aware in UTC, a bar and an earnings timestamp that
share calendar day 10 do not match: `isin` compares the day-truncated values
as absolute instants, so the flag comes out false although the bar's
canonical date is a member of the canonical earnings dates. -/
theorem c1_counterexample :
    (fetch_historical_data "AAPL" ⟨[14700], some (-300)⟩
        [⟨100, 105, 99, 104, 1000⟩] ⟨[15390], some 0⟩ "data.csv" "1y" "1d"
        []).map (fun r => r.1.hasEarningsReport)
      = .ok [false]
    ∧ localDay (some (-300)) 14700 = 10
    ∧ localDay (some 0) 15390 = 10 := by
  refine ⟨rfl, by decide, by decide⟩

/-- Claim C1 (amended): when the history index and the earnings index carry
the same timezone (both naive or both the same offset), every bar's
`HasEarningsReport` flag is exactly the set-membership of its canonical
(day-truncated) date among the canonical raw earnings dates; with differing
timezones the `isin` comparison is by absolute instant and the
calendar-day reading fails. -/
theorem c1_flag_matches_canonical_days (symbol csv_path period interval :
    String) (fs : FS) (hv ev : List Int) (tzo : Option Int)
    (histRows : List Row) :
    (fetch_historical_data symbol ⟨hv, tzo⟩ histRows ⟨ev, tzo⟩ csv_path
        period interval fs).map (fun r => r.1.hasEarningsReport)
      = .ok (hv.map fun v =>
          decide (localDay tzo v ∈ ev.map (localDay tzo))) := by
  cases tzo with
  | none =>
    rw [fetch_eq_naive]
    simp only [Except.map, DtIndex.normalize, indexIsin, List.map_map]
    congr 1
    apply List.map_congr_left
    intro v _
    simp only [Function.comp]
    exact decide_eq_decide.mpr (trunc_mem_iff_naive v ev)
  | some o =>
    rw [fetch_eq_aware]
    simp only [Except.map, DtIndex.normalize, indexIsin, List.map_map]
    congr 1
    apply List.map_congr_left
    intro v _
    simp only [Function.comp]
    exact decide_eq_decide.mpr (trunc_mem_iff_aware o v ev)

/-! ## Claim C2 (corrected) -/

lemma fsRead_write (fs : FS) (p : String) (c : List CsvRow) :
    fsRead (fsWrite fs p c) p = some c := by
  simp [fsRead, fsWrite, List.find?]

/-- Claim C2 counterexample: a valid single-bar series whose canonical
exchange timezone is UTC+01:00 (bar at local midnight of day 10, stored
instant 14340) decodes to a bar whose calendar day in the decoded series'
timezone is 9, not 10: `load_historical_data` always converts to
`America/New_York`, so the round trip does not reproduce the calendar
dates of a series in another exchange timezone. -/
theorem c2_counterexample :
    load_historical_data "data.csv" (save_historical_data
        { idx := ⟨[14340], some 60⟩
          rows := [⟨100, 105, 99, 104, 1000⟩]
          hasEarningsReport := [true] } "data.csv" [])
      = .ok { idx := ⟨[14340], some nyOffset⟩
              rows := [⟨100, 105, 99, 104, 1000⟩]
              hasEarningsReport := [true] }
    ∧ localDay (some nyOffset) 14340 = 9
    ∧ localDay (some 60) 14340 = 10 := by
  refine ⟨rfl, by decide, by decide⟩

/-- Claim C2 (amended): the hard round trip holds for every valid series
whose canonical exchange timezone is `America/New_York` (the timezone that
`load_historical_data` unconditionally converts to): decoding the written
file reproduces the series exactly — same dates, same timezone, same OHLC
and volume values (exactly, hence within the 1e-9 tolerance), same flags,
in the same order.  For a series in any other timezone only the absolute
instants survive; the calendar dates need not (see the counterexample). -/
theorem c2_roundtrip_newyork (data : DF) (csv_path : String) (fs : FS)
    (htz : data.idx.tz = some nyOffset)
    (hr : data.rows.length = data.idx.vals.length)
    (hf : data.hasEarningsReport.length = data.idx.vals.length)
    (hd : data.hasDateCol = false) (hp : data.pct = none) :
    load_historical_data csv_path (save_historical_data data csv_path fs)
      = .ok data := by
  obtain ⟨⟨hv, tzv⟩, rows, flags, hdc, pc⟩ := data
  simp only at htz hr hf hd hp
  subst htz hd hp
  simp only [load_historical_data, save_historical_data, fsRead_write]
  have hzlen : (rows.zip flags).length = hv.length := by
    rw [List.length_zip]
    omega
  have h1 : List.map Prod.fst (hv.zip (rows.zip flags)) = hv :=
    List.map_fst_zip _ _ (by rw [hzlen])
  have h2 : List.map Prod.snd (hv.zip (rows.zip flags)) = rows.zip flags :=
    List.map_snd_zip _ _ (by rw [hzlen])
  have h3 : List.map Prod.fst (rows.zip flags) = rows :=
    List.map_fst_zip _ _ (by omega)
  have h4 : List.map Prod.snd (rows.zip flags) = flags :=
    List.map_snd_zip _ _ (by omega)
  unfold decodeCsv encodeCsv
  simp only [List.map_map, Except.ok.injEq, DF.mk.injEq, DtIndex.mk.injEq]
  refine ⟨⟨?_, trivial⟩, ?_, ?_, trivial, trivial⟩
  · rw [show ((fun r : CsvRow => r.wall - r.offset.getD 0) ∘ fun t =>
        ({ wall := localWall (some nyOffset) t.1, offset := some nyOffset,
           Open := t.2.1.Open, High := t.2.1.High, Low := t.2.1.Low,
           Close := t.2.1.Close, Volume := t.2.1.Volume,
           flag := t.2.2 } : CsvRow))
        = fun t : Int × (Row × Bool) => t.1 + nyOffset - nyOffset from rfl]
    rw [show (fun t : Int × (Row × Bool) => t.1 + nyOffset - nyOffset)
        = fun t : Int × (Row × Bool) => t.1 by funext t; omega]
    exact h1
  · rw [show ((fun r : CsvRow =>
        ({ Open := r.Open, High := r.High, Low := r.Low, Close := r.Close,
           Volume := r.Volume } : Row)) ∘ fun t =>
        ({ wall := localWall (some nyOffset) t.1, offset := some nyOffset,
           Open := t.2.1.Open, High := t.2.1.High, Low := t.2.1.Low,
           Close := t.2.1.Close, Volume := t.2.1.Volume,
           flag := t.2.2 } : CsvRow))
        = (Prod.fst ∘ Prod.snd :
            Int × (Row × Bool) → Row) from rfl]
    rw [← List.map_map, h2, h3]
  · rw [show ((fun r : CsvRow => r.flag) ∘ fun t =>
        ({ wall := localWall (some nyOffset) t.1, offset := some nyOffset,
           Open := t.2.1.Open, High := t.2.1.High, Low := t.2.1.Low,
           Close := t.2.1.Close, Volume := t.2.1.Volume,
           flag := t.2.2 } : CsvRow))
        = (Prod.snd ∘ Prod.snd :
            Int × (Row × Bool) → Bool) from rfl]
    rw [← List.map_map, h2, h4]

/-- Claim C2 witness: the round trip at a concrete one-bar
`America/New_York` series. -/
theorem c2_roundtrip_newyork_witness :
    load_historical_data "data.csv" (save_historical_data
        { idx := ⟨[14700], some nyOffset⟩
          rows := [⟨100, 105, 99, 104, 1000⟩]
          hasEarningsReport := [true] } "data.csv" [])
      = .ok { idx := ⟨[14700], some nyOffset⟩
              rows := [⟨100, 105, 99, 104, 1000⟩]
              hasEarningsReport := [true] } :=
  c2_roundtrip_newyork _ "data.csv" [] rfl rfl rfl rfl rfl

/-! ## Claim C10 (confirmed) -/

/-- True exactly when an optional bound is supplied and is tz-aware. -/
def isAwareOpt : Option PTimestamp → Bool
  | some (.aware _ _) => true
  | _ => false

/-- Claim C10: against a timezone-aware series, supplying a start or end
bound that is itself already timezone-aware makes
`plot_candle_interactive` fail with an error (the `tz_localize` call on an
aware timestamp raises `TypeError`) before any filtering, instead of
returning a chart: only timezone-naive bounds are accepted. -/
theorem c10_aware_bound_rejected (data : DF) (o : Int)
    (sd ed : Option PTimestamp)
    (htz : data.idx.tz = some o)
    (hb : (isAwareOpt sd || isAwareOpt ed) = true) :
    (plot_candle_interactive data sd ed).2 = .error .typeError := by
  cases sd with
  | some t =>
    cases t with
    | aware i oo =>
      simp [plot_candle_interactive, convBound, tsLocalize, Except.map, htz]
    | naive w =>
      simp only [isAwareOpt, Bool.false_or] at hb
      cases ed with
      | none => simp [isAwareOpt] at hb
      | some u =>
        cases u with
        | aware j pp =>
          simp [plot_candle_interactive, convBound, tsLocalize, Except.map, htz]
        | naive x => simp [isAwareOpt] at hb
  | none =>
    simp only [isAwareOpt, Bool.false_or] at hb
    cases ed with
    | none => simp [isAwareOpt] at hb
    | some u =>
      cases u with
      | aware j pp =>
        simp [plot_candle_interactive, convBound, tsLocalize, Except.map, htz]
      | naive x => simp [isAwareOpt] at hb

/-- Claim C10 witness: a concrete aware series with a concrete aware start
bound is rejected with `TypeError`. -/
theorem c10_aware_bound_rejected_witness :
    (plot_candle_interactive
        { idx := ⟨[14700], some (-300)⟩
          rows := [⟨100, 105, 99, 104, 1000⟩]
          hasEarningsReport := [true] }
        (some (.aware 14400 0)) none).2 = .error .typeError :=
  c10_aware_bound_rejected _ (-300) _ _ rfl rfl

/-! ## Claim C4 (corrected) -/

/-- Claim C4 counterexample: a timezone-naive bound against a
timezone-aware series does not raise anything: it is silently localized to
the series' timezone and filtering proceeds, returning a chart. -/
theorem c4_counterexample :
    (plot_candle_interactive
        { idx := ⟨[14700], some (-300)⟩
          rows := [⟨100, 105, 99, 104, 1000⟩]
          hasEarningsReport := [true] }
        (some (.naive 14400)) none).2
      = .ok { dates := [14700], Open := [100], High := [105], Low := [99],
              Close := [104], pct := [.fin 4], markerDates := [14700],
              markerClose := [104] } := by
  have hp : pcOf 100 104 = .fin 4 := by
    norm_num [pcOf, PyFloat.sub, PyFloat.div, PyFloat.mul]
  simp [plot_candle_interactive, convBound, tsLocalize, tsVal, Except.map, keepBar, hp]

/-- Whether a chart outcome is a successful chart rather than a raised
error. -/
def chartOk : Except PyErr ChartSpec → Bool
  | .ok _ => true
  | .error _ => false

/-- Claim C4 (amended): a start or end bound supplied without timezone
information is localized to the series' timezone and compared inclusively;
no `TimezoneMismatch` (nor any other error) is raised for naive bounds
against an aware series — only an already-aware bound errors (see C10). -/
theorem c4_naive_bound_accepted (dv : List Int) (o : Int) (rows : List Row)
    (flags : List Bool) (hdc : Bool) (pc : Option (List PyFloat))
    (sw ew : Option Int) :
    chartOk (plot_candle_interactive ⟨⟨dv, some o⟩, rows, flags, hdc, pc⟩
        (sw.map PTimestamp.naive) (ew.map PTimestamp.naive)).2 = true := by
  cases sw <;> cases ew <;>
    simp [plot_candle_interactive, convBound, tsLocalize, tsVal, Except.map, chartOk]

/-! ## Claim C5 (corrected) -/

/-- Claim C5 counterexample: a filtered bar with `Open = 0` produces the
IEEE value `+inf` as its percent change inside the emitted chart — the bar
is not flagged and the infinity is not avoided. -/
theorem c5_counterexample :
    (plot_candle_interactive
        { idx := ⟨[14700], some (-300)⟩
          rows := [⟨0, 5, 0, 5, 10⟩]
          hasEarningsReport := [false] } none none).2
      = .ok { dates := [14700], Open := [0], High := [5], Low := [0],
              Close := [5], pct := [.posInf], markerDates := [],
              markerClose := [] } := by
  have hp : pcOf 0 5 = .posInf := by
    norm_num [pcOf, PyFloat.sub, PyFloat.div, PyFloat.mul]
  simp [plot_candle_interactive, convBound, keepBar, hp]

/-- Claim C5 (amended): `plot_candle_interactive` computes the derived
metric `percentChange = (close - open) / open * 100` for every filtered bar
with no special-casing whatsoever: the chart's percent-change column is
exactly the float formula applied to its open/close columns, so a bar with
`open == 0` yields an IEEE infinity (or NaN) in the chart rather than being
flagged or left undefined. -/
theorem c5_pct_unguarded (data : DF) (sd ed : Option PTimestamp)
    (spec : ChartSpec)
    (hok : (plot_candle_interactive data sd ed).2 = .ok spec) :
    spec.pct = List.zipWith (fun o c => pcOf o c) spec.Open spec.Close := by
  unfold plot_candle_interactive at hok
  rcases h1 : convBound sd data.idx.tz with e | sv <;> rw [h1] at hok
  · simp at hok
  rcases h2 : convBound ed data.idx.tz with e | ev <;> rw [h2] at hok
  · simp at hok
  simp only [Except.ok.injEq] at hok
  subst hok
  simp only [List.zipWith_map, List.zipWith_same]

/-- Claim C5 witness: the percent-change/formula identity at a concrete
call. -/
theorem c5_pct_unguarded_witness :
    (ChartSpec.mk [] [] [] [] [] [] [] []).pct
      = List.zipWith (fun o c => pcOf o c)
          (ChartSpec.mk [] [] [] [] [] [] [] []).Open
          (ChartSpec.mk [] [] [] [] [] [] [] []).Close :=
  c5_pct_unguarded (DF.mk ⟨[], some nyOffset⟩ [] [] false none) none none
    (ChartSpec.mk [] [] [] [] [] [] [] []) rfl

/-! ## Claim C8 (corrected) -/

/-- Claim C8 counterexample: after a call to `plot_candle_interactive` the
caller's frame is not what it was: it has gained a `Date` column (and, with
no bounds supplied, a computed `Percent Change` column), where before the
call it had neither. -/
theorem c8_counterexample :
    (plot_candle_interactive
        { idx := ⟨[14700], some (-300)⟩
          rows := [⟨100, 105, 99, 104, 1000⟩]
          hasEarningsReport := [true] } none none).1.hasDateCol = true
    ∧ (DF.mk ⟨[14700], some (-300)⟩ [⟨100, 105, 99, 104, 1000⟩] [true]
        false none).hasDateCol = false
    ∧ (plot_candle_interactive
        { idx := ⟨[14700], some (-300)⟩
          rows := [⟨100, 105, 99, 104, 1000⟩]
          hasEarningsReport := [true] } none none).1.pct
        = some [.fin 4]
    ∧ (DF.mk ⟨[14700], some (-300)⟩ [⟨100, 105, 99, 104, 1000⟩] [true]
        false none).pct = none := by
  have hp : pcOf 100 104 = .fin 4 := by
    norm_num [pcOf, PyFloat.sub, PyFloat.div, PyFloat.mul]
  refine ⟨rfl, rfl, ?_, rfl⟩
  simp [plot_candle_interactive, convBound, keepBar, hp]

/-- Claim C8 (amended): `plot_candle_interactive` does not leave the
caller's frame untouched: it sets the `Date` column on the caller's object
in place before anything else, and when no bound is supplied the
`Percent Change` column is also stored on the caller's object; the index,
the OHLCV rows and the earnings flags are never modified, and when a bound
is supplied the filtering itself operates on a fresh copy. -/
theorem c8_caller_frame_mutated (data : DF) (sd ed : Option PTimestamp) :
    (plot_candle_interactive data sd ed).1.idx = data.idx
    ∧ (plot_candle_interactive data sd ed).1.rows = data.rows
    ∧ (plot_candle_interactive data sd ed).1.hasEarningsReport
        = data.hasEarningsReport
    ∧ (plot_candle_interactive data sd ed).1.hasDateCol = true
    ∧ (plot_candle_interactive data sd ed).1.pct
        = (if sd.isNone && ed.isNone then
            some ((data.idx.vals.zip
                (data.rows.zip data.hasEarningsReport)).map
              fun t => pcOf t.2.1.Open t.2.1.Close)
           else data.pct) := by
  obtain ⟨⟨dv, dtz⟩, rows, flags, hdc, pc⟩ := data
  cases sd with
  | none =>
    cases ed with
    | none =>
      simp [plot_candle_interactive, convBound, keepBar]
    | some u =>
      cases dtz <;> cases u <;>
        simp [plot_candle_interactive, convBound, tsLocalize, tsVal, Except.map]
  | some t =>
    cases ed with
    | none =>
      cases dtz <;> cases t <;>
        simp [plot_candle_interactive, convBound, tsLocalize, tsVal, Except.map]
    | some u =>
      cases dtz <;> cases t <;> cases u <;>
        simp [plot_candle_interactive, convBound, tsLocalize, tsVal, Except.map]

end SDF
